import Mathlib

/-!
Verification development for `mt_stats/tools/combine.py`.

The script scans a directory of published per-group CSV statistics files
and is meant to merge each into its group's persisted aggregate file and
delete the consumed published file.  As written it cannot execute past
its aggregate-reading block: the `csv.reader` keyword at line 14
(`skipiInitialspace`) and at line 25 (`skipInitialspace`) are invalid —
the csv dialect keyword is `skipinitialspace`, and an unknown keyword
raises `TypeError` — the `except` clause at line 18 names the undefined
`IOERROR` (so when any exception arrives the handler lookup itself
raises `NameError`, replacing it), and the merge loop bound at line 31
(also the slice index at line 33) is the unbound name
`aggegateTimeProfiles`.  Hence every run aborts with `NameError` at
line 18 while reading the first file's aggregate — absent aggregate:
`IOError` from `open`; present aggregate: `TypeError` from line 14 —
before the published file is even opened.  Lines 24-48 (parse, merge,
sort, `os.remove`, aggregate write) are unreachable.

The embedding therefore has two layers.  `readAggregateLiteral`,
`readPublishedLiteral`, `mergeTripleLiteral`, `processFileLiteral` and
`runCombineLiteral` model the script literally, with csv keyword
validation and Python name resolution explicit.  The auxiliary
definitions `readAggregate`, `addProfiles`, `mergeTimeProfiles` and
`mergeTriple` give the evident intended reading of single statements
(the design document's own notes name the typos and call the described
merge semantics the intent); they serve to state how even that reading
diverges from the specification, and as the counterfactual bound-name
branch inside the literal merge.  CSV cells are records of the outcomes
of Python's `int(x)` / `float(x)` conversions, Python exceptions are an
explicit error type, and the file system is association lists from file
names to row contents.
-/

/-- A Python exception, restricted to the kinds the script can raise. -/
inductive PyError : Type
  | nameError
  | ioError
  | typeError
  | valueError
  | stopIteration
  | indexError
deriving DecidableEq, Repr

/-- A CSV cell, modelled by the outcomes of Python's numeric conversions
on its text: `asInt` is the result of `int(x)` (`none` means `int(x)`
raises `ValueError`), `asFloat` the result of `float(x)` (rationals stand
in for the decimal literals the script handles). -/
structure Cell : Type where
  asInt : Option Int
  asFloat : Option Rat
deriving DecidableEq, Repr

/-- The cell written by `csv.writer` for an integer `n`: its text parses
back as both `int` and `float`. -/
def intCell (n : Int) : Cell := ⟨some n, some n⟩

/-- The cell written by `csv.writer` for a float `q` (Python prints a
decimal point, so `int(x)` on it raises `ValueError` while `float(x)`
recovers `q`). -/
def floatCell (q : Rat) : Cell := ⟨none, some q⟩

/-- A cell whose text is not numeric at all: both conversions raise. -/
def badCell : Cell := ⟨none, none⟩

/-- Line 26 / 15: `[int(x) for x in next(reader)]`.  The comprehension
converts cells left to right and raises `ValueError` at the first
non-integer token. -/
def parseInts : List Cell → Except PyError (List Int)
  | [] => Except.ok []
  | c :: cs =>
    match c.asInt with
    | none => Except.error PyError.valueError
    | some n =>
      match parseInts cs with
      | Except.error e => Except.error e
      | Except.ok ns => Except.ok (n :: ns)

/-- Lines 27-28 / 16-17: `[float(x) for x in next(reader)]`. -/
def parseFloats : List Cell → Except PyError (List Rat)
  | [] => Except.ok []
  | c :: cs =>
    match c.asFloat with
    | none => Except.error PyError.valueError
    | some q =>
      match parseFloats cs with
      | Except.error e => Except.error e
      | Except.ok qs => Except.ok (q :: qs)

/-- `next(reader)`: yields the next row or raises `StopIteration` when the
file has no further rows. -/
def nextRow : List (List Cell) → Except PyError (List Cell × List (List Cell))
  | [] => Except.error PyError.stopIteration
  | r :: rs => Except.ok (r, rs)

/-- The three parallel numeric sequences of an aggregate record:
`timeProfiles` (ints), `totalCounts` and `timeStdevs` (floats). -/
structure Triple : Type where
  tp : List Int
  tc : List Rat
  ts : List Rat
deriving DecidableEq, Repr

/-- Lines 26-28 (and 15-17): the three `next`-and-convert steps that
would follow a successful `csv.reader` construction, each `next`
followed immediately by the conversion of its row, rows after the third
never requested.  In the literal script the reader construction itself
fails (see `csvReaderCheck`), so this code never runs there; it is the
body of the intended-resolution `readAggregate`. -/
def readRows (rows : List (List Cell)) : Except PyError Triple :=
  match nextRow rows with
  | Except.error e => Except.error e
  | Except.ok (r1, rows1) =>
    match parseInts r1 with
    | Except.error e => Except.error e
    | Except.ok tp =>
      match nextRow rows1 with
      | Except.error e => Except.error e
      | Except.ok (r2, rows2) =>
        match parseFloats r2 with
        | Except.error e => Except.error e
        | Except.ok tc =>
          match nextRow rows2 with
          | Except.error e => Except.error e
          | Except.ok (r3, _) =>
            match parseFloats r3 with
            | Except.error e => Except.error e
            | Except.ok ts => Except.ok ⟨tp, tc, ts⟩

/-- The exception-class names Python's builtins actually bind (the ones
relevant to this script).  `IOERROR` is not among them: Python defines
`IOError`. -/
def pythonBuiltinExceptionNames : List String :=
  ["IOError", "OSError", "ValueError", "TypeError", "StopIteration",
   "NameError", "IndexError", "Exception"]

/-- The name written in the `except` clause at line 18 of the source. -/
def exceptClauseName : String := "IOERROR"

/-- Literal model of lines 12-21 when the aggregate file is absent:
`open` raises `IOError`, and Python then evaluates the name in the
`except` clause.  The clause names `IOERROR`, which is unbound, so the
lookup itself raises `NameError` and the handler never runs; with the
correct spelling the handler would produce the three empty sequences. -/
def missingAggregateOutcome : Except PyError Triple :=
  if pythonBuiltinExceptionNames.contains exceptClauseName then
    Except.ok ⟨[], [], []⟩
  else
    Except.error PyError.nameError

/-- Lines 12-21 under the evident intended reading (handler spelled
`IOError`, a valid reader keyword): a missing aggregate file is caught
and yields three empty sequences, while parse errors inside the `try`
block are not `IOError` and propagate.  The literal script never reaches
these outcomes — see `readAggregateLiteral`; this definition exists to
state how far even the intended reading carries. -/
def readAggregate (agg : Option (List (List Cell))) : Except PyError Triple :=
  match agg with
  | none => Except.ok ⟨[], [], []⟩
  | some rows => readRows rows

/-- The csv dialect keywords `csv.reader` accepts; any other keyword
argument raises `TypeError`.  Note the accepted spelling is all
lowercase `skipinitialspace`. -/
def csvDialectKeywords : List String :=
  ["dialect", "delimiter", "quotechar", "escapechar", "doublequote",
   "skipinitialspace", "lineterminator", "quoting", "strict"]

/-- The keyword written in the `csv.reader` call at line 14. -/
def aggregateReaderKeyword : String := "skipiInitialspace"

/-- The keyword written in the `csv.reader` call at line 25. -/
def publishedReaderKeyword : String := "skipInitialspace"

/-- `csv.reader(...)` keyword validation: an unknown keyword argument
raises `TypeError` before any row can be read. -/
def csvReaderCheck (kw : String) : Except PyError Unit :=
  if csvDialectKeywords.contains kw then Except.ok () else Except.error PyError.typeError

/-- The `try`/`except` of lines 12-21, literally: a raised exception
makes Python evaluate the name in the `except` clause; if that name is
unbound the lookup raises `NameError`, replacing the original exception;
were it bound (to the `IOError` class), exactly `IOError` would be
caught and yield the three empty sequences of lines 19-21. -/
def tryExceptIOERROR (body : Except PyError Triple) : Except PyError Triple :=
  match body with
  | Except.ok t => Except.ok t
  | Except.error e =>
    if pythonBuiltinExceptionNames.contains exceptClauseName then
      if e = PyError.ioError then Except.ok ⟨[], [], []⟩ else Except.error e
    else Except.error PyError.nameError

/-- Lines 13-17, literally: `open` raises `IOError` when the aggregate
file is absent; otherwise the `csv.reader` construction at line 14
validates its keywords (the misspelled one raises `TypeError`) before
the three rows would be read. -/
def aggregateTryBody (agg : Option (List (List Cell))) : Except PyError Triple :=
  match agg with
  | none => Except.error PyError.ioError
  | some rows =>
    match csvReaderCheck aggregateReaderKeyword with
    | Except.error e => Except.error e
    | Except.ok _ => readRows rows

/-- Lines 12-21, literally: the `try` body wrapped in the misspelled
`except` clause.  On both paths (absent or present aggregate) the body
raises, and the handler lookup turns the exception into `NameError`. -/
def readAggregateLiteral (agg : Option (List (List Cell))) : Except PyError Triple :=
  tryExceptIOERROR (aggregateTryBody agg)

/-- Lines 24-28, literally: the `csv.reader` construction at line 25
validates its keywords — `skipInitialspace` (capital I) is invalid, so
`TypeError` is raised before any `next` — and only then would the three
rows be read. -/
def readPublishedLiteral (rows : List (List Cell)) : Except PyError Triple :=
  match csvReaderCheck publishedReaderKeyword with
  | Except.error e => Except.error e
  | Except.ok _ => readRows rows

/-- Lines 31-32 under the intended loop-bound name
(`aggregateTimeProfiles`): the loop runs over the aggregate's indices,
so it raises `IndexError` as soon as the published sequence is
exhausted, i.e. exactly when the published sequence is shorter.  The
literal source spells the bound `aggegateTimeProfiles`, an unbound name
— see `mergeTripleLiteral`. -/
def addProfiles : List Int → List Int → Except PyError (List Int)
  | [], _ => Except.ok []
  | _ :: _, [] => Except.error PyError.indexError
  | a :: as, t :: ts =>
    match addProfiles as ts with
    | Except.error e => Except.error e
    | Except.ok rs => Except.ok ((a + t) :: rs)

/-- Lines 31-33 under the intended names: the positional sum loop
followed by `aggregateTimeProfiles += timeProfiles[len(...):]` (the
in-place adds leave the aggregate's length unchanged, so the slice
starts at the original aggregate length). -/
def mergeTimeProfiles (agg tp : List Int) : Except PyError (List Int) :=
  match addProfiles agg tp with
  | Except.error e => Except.error e
  | Except.ok summed => Except.ok (summed ++ tp.drop agg.length)

/-- Python's `list.sort()`: stable ascending sort.  On rationals the
sorted permutation is unique, so any correct sort models it; we use
insertion sort, which the kernel can evaluate. -/
def pySort (l : List Rat) : List Rat := List.insertionSort (fun a b => a ≤ b) l

/-- Lines 31-38 under the intended names: merge a published triple into
the aggregate triple — the `timeProfiles` loop first (it can raise
`IndexError`), then `totalCounts` and `timeStdevs` concatenated and
sorted ascending.  Unreachable in the literal script. -/
def mergeTriple (agg new : Triple) : Except PyError Triple :=
  match mergeTimeProfiles agg.tp new.tp with
  | Except.error e => Except.error e
  | Except.ok tp =>
    Except.ok ⟨tp, pySort (agg.tc ++ new.tc), pySort (agg.ts ++ new.ts)⟩

/-- The local names the script has bound by the time line 31 executes.
The loop bound written there, `aggegateTimeProfiles`, is not among
them. -/
def boundLocalNames : List String :=
  ["directory", "filename", "group", "csvfile", "reader",
   "aggregateTimeProfiles", "aggregateTotalCounts", "aggregateTimeStdevs",
   "timeProfiles", "totalCounts", "timeStdevs"]

/-- The name of the merge loop bound at line 31 (and of the slice index
at line 33). -/
def mergeLoopBoundName : String := "aggegateTimeProfiles"

/-- Lines 31-38, literally: evaluating `len(aggegateTimeProfiles)`
resolves the name before the first iteration; it is unbound, so the
block raises `NameError`; were it bound to `aggregateTimeProfiles`, the
block would compute `mergeTriple`. -/
def mergeTripleLiteral (agg new : Triple) : Except PyError Triple :=
  if boundLocalNames.contains mergeLoopBoundName then mergeTriple agg new
  else Except.error PyError.nameError

/-- Line 9: `filename.rsplit('_', 1)[0]` at character-list level: the
text before the last underscore, or the whole name when it has no
underscore (in which case `rsplit` returns the one-element list holding
the whole string). -/
def groupKeyChars (s : List Char) : List Char :=
  if '_' ∈ s then (((s.reverse).dropWhile (fun c => c ≠ '_')).drop 1).reverse
  else s

/-- Line 9: the group key derived from a published file name. -/
def groupKey (s : String) : String := String.mk (groupKeyChars s.data)

/-- Lines 44-48: the rows `csv.writer` would emit for a merged triple —
exactly three comma-separated numeric rows, in the fixed order
`timeProfiles`, `totalCounts`, `timeStdevs`. -/
def aggFileRows (t : Triple) : List (List Cell) :=
  [t.tp.map intCell, t.tc.map floatCell, t.ts.map floatCell]

/-- Look a file name up in a directory (association list of file name
and row contents). -/
def lookupFile {α : Type} : List (String × α) → String → Option α
  | [], _ => none
  | (k, v) :: rest, n => if k = n then some v else lookupFile rest n

/-- `os.remove`: drop a file from a directory. -/
def removeFile {α : Type} : List (String × α) → String → List (String × α)
  | [], _ => []
  | (k, v) :: rest, n => if k = n then removeFile rest n else (k, v) :: removeFile rest n

/-- `open(..., 'wb')` plus write: create or overwrite a file. -/
def setFile {α : Type} : List (String × α) → String → α → List (String × α)
  | [], n, v => [(n, v)]
  | (k, w) :: rest, n, v =>
    if k = n then (n, v) :: rest else (k, w) :: setFile rest n v

/-- The file-system state the script touches: the published directory
and the aggregate directory, each mapping file names to CSV rows. -/
structure FS : Type where
  published : List (String × List (List Cell))
  aggregates : List (String × List (List Cell))
deriving DecidableEq, Repr

/-- Line 41: delete the published file. -/
def removePublished (fs : FS) (name : String) : FS :=
  ⟨removeFile fs.published name, fs.aggregates⟩

/-- Lines 43-48: overwrite the group's aggregate file with the merged
rows. -/
def writeAggregate (fs : FS) (g : String) (rows : List (List Cell)) : FS :=
  ⟨fs.published, setFile fs.aggregates g rows⟩

/-- One iteration of the loop of lines 6-48 on file `name`, literal
semantics: derive the group key, attempt the aggregate read of lines
12-21 (which raises on every path), then — in the unreachable
continuation, kept in source order — open and read the published file,
merge, `os.remove` (line 41), and only afterwards write the aggregate
(lines 43-48).  The returned state reflects every mutation performed
before a raised exception; the raise points all precede both
mutations. -/
def processFileLiteral (fs : FS) (name : String) : FS × Option PyError :=
  match readAggregateLiteral (lookupFile fs.aggregates (groupKey name)) with
  | Except.error e => (fs, some e)
  | Except.ok agg =>
    match lookupFile fs.published name with
    | none => (fs, some PyError.ioError)
    | some content =>
      match readPublishedLiteral content with
      | Except.error e => (fs, some e)
      | Except.ok new =>
        match mergeTripleLiteral agg new with
        | Except.error e => (fs, some e)
        | Except.ok merged =>
          (writeAggregate (removePublished fs name) (groupKey name) (aggFileRows merged),
            none)

/-- The loop of lines 6-48 over the directory listing, literal
semantics: process each published file in turn; an uncaught exception
aborts the whole run (the script has no per-file handler), leaving the
remaining files unprocessed. -/
def runCombineLiteral (fs : FS) (names : List String) : FS × Option PyError :=
  match names with
  | [] => (fs, none)
  | n :: rest =>
    match processFileLiteral fs n with
    | (fs1, none) => runCombineLiteral fs1 rest
    | (fs1, some e) => (fs1, some e)

/-- Decidable equality of outcomes, for evaluating the embedding on
concrete inputs. -/
instance {ε α : Type} [DecidableEq ε] [DecidableEq α] : DecidableEq (Except ε α) :=
  fun a b =>
    match a, b with
    | Except.ok x, Except.ok y =>
      match decEq x y with
      | isTrue h => isTrue (by rw [h])
      | isFalse h => isFalse (fun hh => h (Except.ok.inj hh))
    | Except.ok _, Except.error _ => isFalse (fun hh => Except.noConfusion hh)
    | Except.error _, Except.ok _ => isFalse (fun hh => Except.noConfusion hh)
    | Except.error e, Except.error f =>
      match decEq e f with
      | isTrue h => isTrue (by rw [h])
      | isFalse h => isFalse (fun hh => h (Except.error.inj hh))

/-! ### Helper lemmas -/

/-- The decimal `0.5` of the specification scenarios is the rational
`mkRat 1 2` used in concrete statements below. -/
theorem dec_half : (0.5 : Rat) = mkRat 1 2 := by norm_num

/-- The decimal `0.2` of the specification scenarios is `mkRat 1 5`. -/
theorem dec_fifth : (0.2 : Rat) = mkRat 1 5 := by norm_num

/-- The misspelled keyword of line 14 is rejected by `csv.reader`. -/
theorem csvReaderCheck_aggregate :
    csvReaderCheck aggregateReaderKeyword = Except.error PyError.typeError := by decide

/-- The misspelled keyword of line 25 is rejected by `csv.reader`. -/
theorem csvReaderCheck_published :
    csvReaderCheck publishedReaderKeyword = Except.error PyError.typeError := by decide

/-- The aggregate read of lines 12-21 raises `NameError` on every input:
absent file → `IOError` at line 13, present file → `TypeError` at
line 14, and in both cases the `except IOERROR` lookup at line 18
replaces the exception with `NameError`. -/
theorem readAggregateLiteral_nameError (agg : Option (List (List Cell))) :
    readAggregateLiteral agg = Except.error PyError.nameError := by
  cases agg with
  | none => decide
  | some rows =>
    simp only [readAggregateLiteral, aggregateTryBody, csvReaderCheck_aggregate]
    decide

/-- The published-file read of lines 24-28 — were it ever reached —
raises `TypeError` at the line 25 reader construction, before any
`next`. -/
theorem readPublishedLiteral_typeError (rows : List (List Cell)) :
    readPublishedLiteral rows = Except.error PyError.typeError := by
  simp only [readPublishedLiteral, csvReaderCheck_published]

/-- Processing any file aborts with `NameError` at line 18, with the
file system unchanged: the abort happens before the published file is
opened and before `os.remove` or any write. -/
theorem processFileLiteral_nameError (fs : FS) (name : String) :
    processFileLiteral fs name = (fs, some PyError.nameError) := by
  simp only [processFileLiteral, readAggregateLiteral_nameError]

/-- Every run over a nonempty directory aborts with `NameError` on its
first file, leaving the whole file system unchanged and every remaining
file unprocessed. -/
theorem runCombineLiteral_nameError (fs : FS) (name : String) (rest : List String) :
    runCombineLiteral fs (name :: rest) = (fs, some PyError.nameError) := by
  simp only [runCombineLiteral, processFileLiteral_nameError]

/-- `dropWhile` skips a whole block whose elements all satisfy the
predicate. -/
theorem dropWhile_append_all {α : Type} (p : α → Bool) (l l2 : List α)
    (h : ∀ x ∈ l, p x = true) :
    List.dropWhile p (l ++ l2) = List.dropWhile p l2 := by
  induction l with
  | nil => simp
  | cons x xs ih =>
    rw [List.cons_append, List.dropWhile_cons, h x (List.mem_cons_self x xs)]
    exact ih (fun y hy => h y (List.mem_cons_of_mem x hy))

/-- `rsplit('_', 1)[0]` on a name whose last underscore separates `a`
from the underscore-free tail `b` recovers `a`. -/
theorem groupKeyChars_append (a b : List Char) (h : '_' ∉ b) :
    groupKeyChars (a ++ '_' :: b) = a := by
  have hin : '_' ∈ a ++ '_' :: b :=
    List.mem_append.mpr (Or.inr (List.mem_cons_self _ _))
  have hb : ∀ x ∈ b.reverse, (decide (x ≠ '_')) = true := by
    intro x hx
    have : x ∈ b := List.mem_reverse.mp hx
    simp only [decide_eq_true_eq]
    intro heq
    exact h (heq ▸ this)
  unfold groupKeyChars
  rw [if_pos hin, List.reverse_append, List.reverse_cons,
    List.append_assoc, List.singleton_append,
    dropWhile_append_all _ _ _ hb, List.dropWhile_cons]
  simp

/-! ### Claim theorems -/

/-- C1: The specification's merge of `timeProfiles` returns a sequence of
length `max` with positional sums below `min` and the longer remainder
copied, so that merging new file `[4,5]` into existing aggregate
`[1,2,3]` yields `[5,7,3]`.  The code's loop instead runs over the
indices of the existing aggregate and indexes the new sequence there, so
on the specification's own scenario it raises `IndexError` (and the
literal source raises `NameError` even earlier, its loop bound naming
the undefined `aggegateTimeProfiles`). -/
theorem timeProfiles_merge_indexError_on_shorter_new :
    mergeTimeProfiles [1, 2, 3] [4, 5] = Except.error PyError.indexError ∧
    mergeTimeProfiles [1, 2, 3] [4, 5] ≠ Except.ok [5, 7, 3] := by decide

/-- C2: The claim says a missing aggregate file is treated as three empty
sequences and the run proceeds.  The literal `except` clause names
`IOERROR`, which Python's builtins do not bind (`IOError` is the builtin),
so when the missing-file `IOError` arrives the handler lookup itself
raises `NameError` and the run aborts; with the intended spelling the
empty baseline would indeed result. -/
theorem missing_aggregate_raises_nameError :
    missingAggregateOutcome = Except.error PyError.nameError ∧
    readAggregate none = Except.ok ⟨[], [], []⟩ := by decide

/-- C3: The claim says the merged aggregate is persisted strictly before
the published file is deleted, and no reachable state has a deleted file
with unpersisted data.  The code never reaches either step: at the
scenario input (published `portA_001`, existing aggregate `portA`)
processing aborts with `NameError` at line 18 — the aggregate's
`TypeError` from the invalid keyword at line 14 hits the misspelled
`except` clause — returning the file system unchanged, the published
file still present and the aggregate still the old rows.  `os.remove`
(line 41) and the write (lines 43-48) are unreachable, and in the
unreachable text the remove precedes the write. -/
theorem write_before_delete_never_happens :
    processFileLiteral
        ⟨[("portA_001", [[intCell 1], [], []])], [("portA", [[intCell 5], [], []])]⟩
        "portA_001" =
      (⟨[("portA_001", [[intCell 1], [], []])], [("portA", [[intCell 5], [], []])]⟩,
        some PyError.nameError) ∧
    lookupFile
        (processFileLiteral
          ⟨[("portA_001", [[intCell 1], [], []])], [("portA", [[intCell 5], [], []])]⟩
          "portA_001").1.published "portA_001" =
      some [[intCell 1], [], []] ∧
    lookupFile
        (processFileLiteral
          ⟨[("portA_001", [[intCell 1], [], []])], [("portA", [[intCell 5], [], []])]⟩
          "portA_001").1.aggregates "portA" =
      some [[intCell 5], [], []] := by
  decide

/-- Counterexample for C4 as stated: a directory holding a malformed
`portA_001` (non-numeric token) followed by a well-formed `portB_001`.
The run aborts with `NameError` at line 18 while reading `portA_001`'s
aggregate — before the malformed row could even be seen — with the file
system unchanged: `portA_001` is retained and no aggregate written, but
`portB_001` is never processed, so the run does not skip and continue
with the next file. -/
theorem malformed_row_run_aborts_counterexample :
    runCombineLiteral
        ⟨[("portA_001", [[badCell], [], []]), ("portB_001", [[intCell 1], [], []])], []⟩
        ["portA_001", "portB_001"] =
      (⟨[("portA_001", [[badCell], [], []]), ("portB_001", [[intCell 1], [], []])], []⟩,
        some PyError.nameError) ∧
    lookupFile
        (runCombineLiteral
          ⟨[("portA_001", [[badCell], [], []]), ("portB_001", [[intCell 1], [], []])], []⟩
          ["portA_001", "portB_001"]).1.published "portB_001" =
      some [[intCell 1], [], []] ∧
    lookupFile
        (runCombineLiteral
          ⟨[("portA_001", [[badCell], [], []]), ("portB_001", [[intCell 1], [], []])], []⟩
          ["portA_001", "portB_001"]).1.aggregates "portB" =
      none := by
  decide

/-- C4 (amended): a published file containing a malformed row is indeed
not deleted and its group's aggregate is unchanged, but not because the
file is skipped: every run aborts with `NameError` at line 18 on its
first file — before the published file is even opened, so before the
malformed row is read — and the run does not continue with the next
file. -/
theorem malformed_row_leaves_run_aborted (fs : FS) (name : String) (rest : List String) :
    runCombineLiteral fs (name :: rest) = (fs, some PyError.nameError) :=
  runCombineLiteral_nameError fs name rest

/-- C5: The claim says merging published rows `[1,2,3]`, `[0.5,0.2]`,
`[0.1,0.3]` into an absent aggregate produces `totalCounts` `[0.2,0.5]`
(concatenation sorted ascending).  The code produces no aggregate at
all: the absent aggregate's `IOError` reaches the misspelled
`except IOERROR` clause and the run aborts with `NameError` at line 18;
the `portA` aggregate is never created (`mkRat 1 2`, `mkRat 1 5`,
`mkRat 1 10`, `mkRat 3 10` are the scenario's `0.5`, `0.2`, `0.1`,
`0.3`). -/
theorem absent_aggregate_scenario_aborts :
    runCombineLiteral
        ⟨[("portA_001",
            [[intCell 1, intCell 2, intCell 3],
             [floatCell (mkRat 1 2), floatCell (mkRat 1 5)],
             [floatCell (mkRat 1 10), floatCell (mkRat 3 10)]])], []⟩
        ["portA_001"] =
      (⟨[("portA_001",
            [[intCell 1, intCell 2, intCell 3],
             [floatCell (mkRat 1 2), floatCell (mkRat 1 5)],
             [floatCell (mkRat 1 10), floatCell (mkRat 3 10)]])], []⟩,
        some PyError.nameError) ∧
    lookupFile
        (runCombineLiteral
          ⟨[("portA_001",
              [[intCell 1, intCell 2, intCell 3],
               [floatCell (mkRat 1 2), floatCell (mkRat 1 5)],
               [floatCell (mkRat 1 10), floatCell (mkRat 3 10)]])], []⟩
          ["portA_001"]).1.aggregates "portA" =
      none := by
  decide

/-- C6: The claim equates the sequences produced by merging `F1` then
`F2` with those of merging `F2` then `F1` (both equal to sorting the
concatenation once).  The code performs no merge in either order: with
aggregate `portA` present, both runs abort with `NameError` at line 18
on their first file (the line 14 `TypeError` replaced by the misspelled
handler's lookup), the aggregate keeps its old rows, and no result
sequences exist to compare.  (Even under the intended name resolution
the orders are not interchangeable: the loop raises `IndexError`
whenever the later file's `timeProfiles` is shorter than the
accumulated aggregate's.) -/
theorem merge_order_scenario_aborts :
    runCombineLiteral
        ⟨[("portA_002", [[intCell 4, intCell 5], [], []]),
          ("portA_003", [[intCell 6], [], []])],
         [("portA", [[intCell 1, intCell 2, intCell 3], [], []])]⟩
        ["portA_002", "portA_003"] =
      (⟨[("portA_002", [[intCell 4, intCell 5], [], []]),
          ("portA_003", [[intCell 6], [], []])],
         [("portA", [[intCell 1, intCell 2, intCell 3], [], []])]⟩,
        some PyError.nameError) ∧
    runCombineLiteral
        ⟨[("portA_002", [[intCell 4, intCell 5], [], []]),
          ("portA_003", [[intCell 6], [], []])],
         [("portA", [[intCell 1, intCell 2, intCell 3], [], []])]⟩
        ["portA_003", "portA_002"] =
      (⟨[("portA_002", [[intCell 4, intCell 5], [], []]),
          ("portA_003", [[intCell 6], [], []])],
         [("portA", [[intCell 1, intCell 2, intCell 3], [], []])]⟩,
        some PyError.nameError) := by
  decide

/-- C7: For a published filename consisting of a prefix `a`, an
underscore, and an underscore-free final segment `b`, the derived group
key is exactly `a`, i.e. the filename with its last `_`-delimited
segment removed. -/
theorem groupKey_strips_last_segment (a b : List Char) (h : '_' ∉ b) :
    groupKey (String.mk (a ++ '_' :: b)) = String.mk a := by
  unfold groupKey
  rw [show (String.mk (a ++ '_' :: b)).data = a ++ '_' :: b from rfl,
    groupKeyChars_append a b h]

/-- Witness for C7: the filename `portA_001` yields group key `portA`. -/
theorem groupKey_strips_last_segment_witness :
    ('_' ∉ "001".data) ∧
    groupKey (String.mk ("portA".data ++ '_' :: "001".data)) = String.mk "portA".data :=
  ⟨by decide, groupKey_strips_last_segment "portA".data "001".data (by decide)⟩

/-- C8: The claim says every aggregate file written by the tool has
exactly three comma-separated numeric rows in the fixed order, an
invariant preserved by every merge.  The tool never writes any aggregate
file: processing aborts with `NameError` at line 18 before lines 43-48,
so at the failing input no `portA` aggregate exists afterwards — even
though the unreachable writer text would indeed emit exactly the three
rows `timeProfiles`, `totalCounts`, `timeStdevs`. -/
theorem aggregate_never_written :
    processFileLiteral ⟨[("portA_001", [[intCell 1], [], []])], []⟩ "portA_001" =
      (⟨[("portA_001", [[intCell 1], [], []])], []⟩, some PyError.nameError) ∧
    lookupFile
        (processFileLiteral ⟨[("portA_001", [[intCell 1], [], []])], []⟩
          "portA_001").1.aggregates (groupKey "portA_001") =
      none ∧
    (∀ t : Triple,
      aggFileRows t = [t.tp.map intCell, t.tc.map floatCell, t.ts.map floatCell] ∧
      (aggFileRows t).length = 3) := by
  refine ⟨by decide, by decide, fun t => ⟨rfl, rfl⟩⟩

/-- C9: For a published filename containing no underscore, `rsplit`
returns the single segment unchanged, so the group key equals the whole
filename and the file merges into the aggregate of the same name. -/
theorem groupKey_no_underscore_is_identity (s : List Char) (h : '_' ∉ s) :
    groupKey (String.mk s) = String.mk s := by
  unfold groupKey groupKeyChars
  rw [show (String.mk s).data = s from rfl, if_neg h]

/-- Witness for C9: the underscore-free filename `portA` is its own
group key. -/
theorem groupKey_no_underscore_is_identity_witness :
    ('_' ∉ "portA".data) ∧ groupKey (String.mk "portA".data) = String.mk "portA".data :=
  ⟨by decide, groupKey_no_underscore_is_identity "portA".data (by decide)⟩

/-- Counterexample for C10 as stated: a two-row published file.  The
claim says its parsing fails by exhausting the row reader (`next`
raising `StopIteration`); in fact processing aborts with `NameError` at
line 18 — a different exception, raised before the published file is
opened and before any `next` could run. -/
theorem short_file_mechanism_counterexample :
    processFileLiteral
        ⟨[("portA_001", [[intCell 1], [floatCell (mkRat 1 2)]])], []⟩ "portA_001" =
      (⟨[("portA_001", [[intCell 1], [floatCell (mkRat 1 2)]])], []⟩,
        some PyError.nameError) ∧
    PyError.nameError ≠ PyError.stopIteration := by
  decide

/-- C10 (amended): a published file with fewer than three rows is indeed
left in place with its group's aggregate unchanged — processing fails
before the delete and write steps — but the failure is the `NameError`
of line 18, raised before the published file is opened, not the row
reader: the `csv.reader` construction at line 25 would raise `TypeError`
from its invalid keyword before any `next` could raise `StopIteration`,
so no row — third or later — is ever read. -/
theorem short_file_state_unchanged (fs : FS) (name : String) (rows : List (List Cell)) :
    processFileLiteral fs name = (fs, some PyError.nameError) ∧
    readPublishedLiteral rows = Except.error PyError.typeError :=
  ⟨processFileLiteral_nameError fs name, readPublishedLiteral_typeError rows⟩
